import Mathlib

/-!
Shallow embedding of the garment production-management application
(`src/main.py`): the sqlite data model (tables `orders`, `fabric_cost_1`,
`fabric_standards`, `fabric_cost_history`, `accessories_details`), the
Cost Sheet computation and save path, the Data Entry order creation, the
Orders page stage update, and the Dashboard completion metrics.

Python floats are modelled as rationals (ℚ); sqlite INTEGER columns as ℤ
(unit counts that the UI constrains to naturals as ℕ); rows as structures
and tables as lists of rows, with AUTOINCREMENT surrogate ids threaded
through the database state.
-/

namespace GarmentProd

/-- The twelve cost-form inputs of the Cost Sheet page
(`main.py` lines 387-398), in form order. -/
structure CostInputs where
  fabric_issued : ℚ
  fabric_rate : ℚ
  accessories_rate : ℚ
  printing_rate : ℚ
  overhead_per_unit : ℚ
  labor_cutting_rate : ℚ
  labor_sewing_rate : ℚ
  labor_finishing_rate : ℚ
  dyeing_rate : ℚ
  embroidery_rate : ℚ
  shipping_cost : ℚ
  misc_cost : ℚ
deriving DecidableEq

/-- The derived cost breakdown displayed by the Cost Sheet page. -/
structure CostBreakdown where
  fabric_cost : ℚ
  accessories_cost : ℚ
  printing_cost : ℚ
  overhead_cost : ℚ
  labor_cutting_cost : ℚ
  labor_sewing_cost : ℚ
  labor_finishing_cost : ℚ
  dyeing_cost : ℚ
  embroidery_cost : ℚ
  shipping_cost : ℚ
  misc_cost : ℚ
  total_cost : ℚ
  cost_per_unit : ℚ
deriving DecidableEq

/-- The Cost Sheet calculations, `main.py` lines 409-421.
`units` is the order quantity (sqlite INTEGER, UI-constrained ≥ 1, so ℕ);
`cost_per_unit = total_cost / units if units else 0` becomes a guard on
`units = 0`. -/
def compute (units : ℕ) (i : CostInputs) : CostBreakdown :=
  let fabric_cost := i.fabric_issued * i.fabric_rate
  let accessories_cost := (units : ℚ) * i.accessories_rate
  let printing_cost := (units : ℚ) * i.printing_rate
  let overhead_cost := (units : ℚ) * i.overhead_per_unit
  let labor_cutting_cost := (units : ℚ) * i.labor_cutting_rate
  let labor_sewing_cost := (units : ℚ) * i.labor_sewing_rate
  let labor_finishing_cost := (units : ℚ) * i.labor_finishing_rate
  let dyeing_cost := (units : ℚ) * i.dyeing_rate
  let embroidery_cost := (units : ℚ) * i.embroidery_rate
  let total_cost := fabric_cost + accessories_cost + printing_cost + overhead_cost +
    labor_cutting_cost + labor_sewing_cost + labor_finishing_cost +
    dyeing_cost + embroidery_cost + i.shipping_cost + i.misc_cost
  let cost_per_unit := if units = 0 then 0 else total_cost / (units : ℚ)
  { fabric_cost := fabric_cost
    accessories_cost := accessories_cost
    printing_cost := printing_cost
    overhead_cost := overhead_cost
    labor_cutting_cost := labor_cutting_cost
    labor_sewing_cost := labor_sewing_cost
    labor_finishing_cost := labor_finishing_cost
    dyeing_cost := dyeing_cost
    embroidery_cost := embroidery_cost
    shipping_cost := i.shipping_cost
    misc_cost := i.misc_cost
    total_cost := total_cost
    cost_per_unit := cost_per_unit }

/-- The worked example input of the spec (units = 10). -/
def exampleInputs : CostInputs :=
  { fabric_issued := 15
    fabric_rate := 5
    accessories_rate := 2
    printing_rate := 1
    overhead_per_unit := 3
    labor_cutting_rate := 4
    labor_sewing_rate := 4
    labor_finishing_rate := 4
    dyeing_rate := 0
    embroidery_rate := 0
    shipping_cost := 50
    misc_cost := 10 }

/-- A row of the `orders` table (`main.py` lines 41-54). `due_date` is stored
as TEXT; it is modelled as the parsed calendar date (a day number) when
`pd.to_datetime` can parse it, `none` when it coerces to NaT. -/
structure OrderRow where
  id : ℕ
  order_number : String
  customer : String
  product : String
  due_date : Option ℤ
  quantity : ℤ
  cutting : ℤ
  sewing : ℤ
  finishing : ℤ
  packaging : ℤ
deriving DecidableEq

/-- A row of the `fabric_cost_1` table (`main.py` lines 57-76); the twelve
cost inputs are grouped in `CostInputs` in column order. -/
structure CostRow where
  order_number : String
  item_type : String
  units : ℕ
  inputs : CostInputs
  last_updated : String
deriving DecidableEq

/-- A row of the `fabric_cost_history` table (`main.py` lines 90-110):
the same fields as `fabric_cost_1` plus the AUTOINCREMENT surrogate id. -/
structure HistRow where
  id : ℕ
  order_number : String
  item_type : String
  units : ℕ
  inputs : CostInputs
  last_updated : String
deriving DecidableEq

/-- A row of the `fabric_standards` table (`main.py` lines 79-87). -/
structure StandardRow where
  id : ℕ
  product_type : String
  size : String
  style : String
  fabric_per_unit : ℚ
deriving DecidableEq

/-- A row of the `accessories_details` table (`main.py` lines 113-122). -/
structure AccessoryRow where
  id : ℕ
  order_number : String
  accessory_type : String
  quantity : ℚ
  rate : ℚ
  last_updated : String
deriving DecidableEq

/-- The five tables of `data/production.db`, plus the AUTOINCREMENT counters
for the tables that have a surrogate id the model needs. -/
structure DB where
  orders : List OrderRow
  fabric_cost_1 : List CostRow
  fabric_standards : List StandardRow
  fabric_cost_history : List HistRow
  accessories_details : List AccessoryRow
  next_order_id : ℕ
  next_hist_id : ℕ
  next_acc_id : ℕ
deriving DecidableEq

/-- A database with all five tables empty. -/
def emptyDB : DB :=
  { orders := []
    fabric_cost_1 := []
    fabric_standards := []
    fabric_cost_history := []
    accessories_details := []
    next_order_id := 1
    next_hist_id := 1
    next_acc_id := 1 }

/-- The rows seeded into `fabric_standards` at first run
(`main.py` lines 127-134). -/
def seededStandards : List StandardRow :=
  [{ id := 1, product_type := "top", size := "standard", style := "regular", fabric_per_unit := 3/2 },
   { id := 2, product_type := "trouser", size := "standard", style := "regular", fabric_per_unit := 1 },
   { id := 3, product_type := "suit", size := "standard", style := "regular", fabric_per_unit := 5/2 }]

/-- The database right after first-run setup: empty except the seeded
fabric standards. -/
def initDB : DB :=
  { emptyDB with fabric_standards := seededStandards }

/-- The `INSERT INTO fabric_cost_history` statement of the save block
(`main.py` lines 457-474). -/
def histInsert (db : DB) (o it : String) (u : ℕ) (i : CostInputs) (ts : String) : DB :=
  { db with
    fabric_cost_history := db.fabric_cost_history ++
      [{ id := db.next_hist_id, order_number := o, item_type := it, units := u,
         inputs := i, last_updated := ts }]
    next_hist_id := db.next_hist_id + 1 }

/-- The `INSERT INTO fabric_cost_1 ... ON CONFLICT(order_number) DO UPDATE`
statement (`main.py` lines 475-508): with `order_number` as primary key, a
conflicting row is overwritten field-by-field with the excluded values,
otherwise the new row is appended. -/
def costUpsert (db : DB) (o it : String) (u : ℕ) (i : CostInputs) (ts : String) : DB :=
  let newRow : CostRow :=
    { order_number := o, item_type := it, units := u, inputs := i, last_updated := ts }
  if db.fabric_cost_1.any (fun r => r.order_number == o) then
    { db with fabric_cost_1 :=
        db.fabric_cost_1.map (fun r => if r.order_number == o then newRow else r) }
  else
    { db with fabric_cost_1 := db.fabric_cost_1 ++ [newRow] }

/-- The two-phase save of the Cost Sheet page (`main.py` lines 454-509):
history append, then current-record upsert. -/
def saveCost (db : DB) (o it : String) (u : ℕ) (i : CostInputs) (ts : String) : DB :=
  costUpsert (histInsert db o it u i ts) o it u i ts

/-- The `SELECT ... FROM fabric_cost_1 WHERE order_number = ?` used to load
the prior inputs as form defaults (`main.py` lines 370-378). -/
def loadCost (db : DB) (o : String) : Option CostInputs :=
  (db.fabric_cost_1.find? (fun r => r.order_number == o)).map (fun r => r.inputs)

/-- The full current cost row for an order number. -/
def loadCostRow (db : DB) (o : String) : Option CostRow :=
  db.fabric_cost_1.find? (fun r => r.order_number == o)

/-- Number of `fabric_cost_history` rows for an order number. -/
def countHist (db : DB) (o : String) : ℕ :=
  (db.fabric_cost_history.filter (fun r => r.order_number == o)).length

/-- Number of `fabric_cost_1` rows for an order number. -/
def countCur (db : DB) (o : String) : ℕ :=
  (db.fabric_cost_1.filter (fun r => r.order_number == o)).length

/-- N repeated saves with the same arguments. -/
def saveIter (o it : String) (u : ℕ) (i : CostInputs) (ts : String) : ℕ → DB → DB
  | 0, db => db
  | n + 1, db => saveCost (saveIter o it u i ts n db) o it u i ts

/-- The two failure modes of the Data Entry insert: the sqlite UNIQUE
constraint on `order_number` (surfaced at `main.py` line 639) and the
`st.number_input(min_value=1)` constraint on quantity (line 628). -/
inductive CreateError
  | duplicateKey
  | validationError
deriving DecidableEq

/-- The Data Entry `INSERT INTO orders` (`main.py` lines 631-642): quantity
below 1 is rejected by the widget constraint, a duplicate order number by
the UNIQUE constraint; otherwise one row is inserted and the four stage
counters take their schema DEFAULT 0. -/
def createOrder (db : DB) (o cust prod : String) (due : ℤ) (qty : ℤ) :
    Except CreateError DB :=
  if qty < 1 then .error .validationError
  else if db.orders.any (fun r => r.order_number == o) then .error .duplicateKey
  else .ok
    { db with
      orders := db.orders ++
        [{ id := db.next_order_id, order_number := o, customer := cust, product := prod,
           due_date := some due, quantity := qty,
           cutting := 0, sewing := 0, finishing := 0, packaging := 0 }]
      next_order_id := db.next_order_id + 1 }

/-- The `st.number_input(label, 0, row.quantity, ...)` widgets of the Orders
page constrain each stage value to [0, quantity]. -/
def clampStage (v qty : ℤ) : ℤ := min (max v 0) qty

/-- The Orders page `UPDATE orders SET cutting=?, sewing=?, finishing=?,
packaging=? WHERE id=?` (`main.py` lines 279-288), with the four widget
constraints applied to the submitted values. -/
def updateStages (db : DB) (oid : ℕ) (vCut vSew vFin vPack : ℤ) : DB :=
  { db with
    orders := db.orders.map (fun r =>
      if r.id == oid then
        { r with
          cutting := clampStage vCut r.quantity
          sewing := clampStage vSew r.quantity
          finishing := clampStage vFin r.quantity
          packaging := clampStage vPack r.quantity }
      else r) }

/-- The accessories form `INSERT INTO accessories_details`
(`main.py` lines 524-530). -/
def addAccessory (db : DB) (o atype : String) (qty rate : ℚ) (ts : String) : DB :=
  { db with
    accessories_details := db.accessories_details ++
      [{ id := db.next_acc_id, order_number := o, accessory_type := atype,
         quantity := qty, rate := rate, last_updated := ts }]
    next_acc_id := db.next_acc_id + 1 }

/-- The built-in `FABRIC_STANDARD` constant table (`main.py` lines 10-14). -/
def FABRIC_STANDARD : List (String × ℚ) :=
  [("top", 3/2), ("trouser", 1), ("suit", 5/2)]

/-- Python `FABRIC_STANDARD.get(item_type, d)`. -/
def fabricStandardGet (t : String) (d : ℚ) : ℚ :=
  match FABRIC_STANDARD.find? (fun p => p.1 == t) with
  | some p => p.2
  | none => d

/-- The query `SELECT fabric_per_unit FROM fabric_standards WHERE
product_type = ? AND size = ?` followed by `fetchone` (`main.py` lines 355-357). -/
def lookupStandard (db : DB) (ptype psize : String) : Option ℚ :=
  (db.fabric_standards.find? (fun r => r.product_type == ptype && r.size == psize)).map
    (fun r => r.fabric_per_unit)

/-- Line 358 of `main.py`: `fabric_required_std = standard_fabric[0] * units
if standard_fabric else FABRIC_STANDARD.get(item_type, 0) * units`. -/
def fabric_required_std (db : DB) (item_type : String) (units : ℕ) : ℚ :=
  match lookupStandard db item_type "standard" with
  | some v => v * units
  | none => fabricStandardGet item_type 0 * units

/-- Line 385 of `main.py`: `fabric_required = fabric_required_override *
units if fabric_required_override else fabric_required_std`;
the override is a float with widget minimum 0, falsy exactly at 0. -/
def fabric_required (override std : ℚ) (units : ℕ) : ℚ :=
  if override = 0 then std else override * units

/-- The two advisory warnings of the cost form (`main.py` lines 402-406). -/
inductive Warning
  | fabricDeviation
  | unusualRate
deriving DecidableEq

/-- The cost-form validation (`main.py` lines 402-406): a deviation warning
when `fabric_issued < required*0.8 or fabric_issued > required*1.2`, an
unusual-rate warning when `fabric_rate < 1.0 or fabric_rate > 50.0`. -/
def validateCost (issued required rate : ℚ) : List Warning :=
  (if issued < required * (8/10) ∨ issued > required * (12/10)
    then [Warning.fabricDeviation] else []) ++
  (if rate < 1 ∨ rate > 50 then [Warning.unusualRate] else [])

/-- One pass of the cost form: the warnings are displayed, and the save runs
exactly when the form was submitted (`main.py` lines 400-406 and 454-509) —
the warnings never gate the save. -/
def costSheetSubmit (db : DB) (submitted : Bool) (o it : String) (u : ℕ)
    (i : CostInputs) (required : ℚ) (ts : String) : List Warning × DB :=
  (validateCost i.fabric_issued required i.fabric_rate,
   if submitted then saveCost db o it u i ts else db)

/-- An sqlite connection in Python's default deferred-transaction mode:
`committed` is the durable database, `current` additionally holds the
writes of the open implicit transaction (DML opens one; only
`conn.commit()` publishes it). -/
structure Conn where
  committed : DB
  current : DB
deriving DecidableEq

/-- Commit, as in `conn.commit()`: publish the pending writes. -/
def commitConn (s : Conn) : Conn := { committed := s.current, current := s.current }

/-- A fault-free save request: both inserts execute, then `conn.commit()`
(`main.py` lines 454-509). -/
def saveCostTxn (s : Conn) (o it : String) (u : ℕ) (i : CostInputs) (ts : String) : Conn :=
  commitConn { s with current := saveCost s.current o it u i ts }

/-- A save request in which the second statement (the `fabric_cost_1`
upsert) raises: the exception handler at `main.py` lines 511-514 swallows
it, so the history insert stays pending in the open transaction — neither
committed nor rolled back. -/
def saveCostFaultBetween (s : Conn) (o it : String) (u : ℕ) (i : CostInputs) (ts : String) : Conn :=
  { s with current := histInsert s.current o it u i ts }

/-- A successful accessory add: insert then `conn.commit()`
(`main.py` lines 524-530). -/
def addAccessoryTxn (s : Conn) (o atype : String) (qty rate : ℚ) (ts : String) : Conn :=
  commitConn { s with current := addAccessory s.current o atype qty rate ts }

/-- A successful Orders-page stage update: `UPDATE` then `conn.commit()`
(`main.py` lines 283-288). -/
def updateStagesTxn (s : Conn) (oid : ℕ) (vCut vSew vFin vPack : ℤ) : Conn :=
  commitConn { s with current := updateStages s.current oid vCut vSew vFin vPack }

/-- Close, as in `conn.close()` at `main.py` line 645: every Streamlit rerun
re-executes the script on a fresh connection and ends by closing it;
Python sqlite3 rolls back the still-open implicit transaction on close,
discarding pending uncommitted writes, so only the committed state is
durable and carried into the next rerun. -/
def closeConn (s : Conn) : DB := s.committed

/-- Sum of `df["packaging"]` over the orders table. -/
def sumPackaging (l : List OrderRow) : ℤ := (l.map (fun r => r.packaging)).sum

/-- Sum of `df["quantity"]` over the orders table. -/
def sumQuantity (l : List OrderRow) : ℤ := (l.map (fun r => r.quantity)).sum

/-- Python `int(...)` on a real value: truncation toward zero. -/
def pyInt (q : ℚ) : ℤ := if 0 ≤ q then ⌊q⌋ else ⌈q⌉

/-- Line 204 of `main.py`: `overall_completion = int((df["packaging"].sum()
/ df["quantity"].sum()) * 100)`. -/
def overall_completion (l : List OrderRow) : ℤ :=
  pyInt ((sumPackaging l : ℚ) / (sumQuantity l : ℚ) * 100)

/-- Predicate `df["due_date"].dt.date > today`: false for NaT. -/
def dueAfter (today : ℤ) (r : OrderRow) : Bool :=
  match r.due_date with
  | some d => decide (today < d)
  | none => false

/-- Predicate `df["due_date"].dt.date < today`: false for NaT. -/
def dueBefore (today : ℤ) (r : OrderRow) : Bool :=
  match r.due_date with
  | some d => decide (d < today)
  | none => false

/-- Line 225 of `main.py`: `on_track = len(df[df["due_date"].dt.date > today])`. -/
def on_track (l : List OrderRow) (today : ℤ) : ℕ := (l.filter (dueAfter today)).length

/-- Line 226 of `main.py`: `at_risk = len(df[df["due_date"].dt.date < today])`. -/
def at_risk (l : List OrderRow) (today : ℤ) : ℕ := (l.filter (dueBefore today)).length

/-- A single order with quantity 3 and packaging 1: the completion ratio
100/3 is not an integer. -/
def exOrders : List OrderRow :=
  [{ id := 1, order_number := "O1", customer := "c", product := "Tops",
     due_date := some 10, quantity := 3, cutting := 2, sewing := 2,
     finishing := 1, packaging := 1 }]

/-- Claim C1, counterexample: the spec's worked example does not evaluate to
total 335 / cost per unit 33.5 — the code (and the very sum the spec lists,
75+20+10+30+40+40+40+0+0+50+10) gives 315 and 31.5. -/
theorem compute_example_total_ne_335 :
    (compute 10 exampleInputs).total_cost ≠ 335 ∧
    (compute 10 exampleInputs).cost_per_unit ≠ 335 / 10 := by
  constructor <;> norm_num [compute, exampleInputs]

/-- Claim C1 (amended): every component of the breakdown follows its formula,
the total is the exact sum of the eleven named components, cost_per_unit is
total/units guarded at units = 0 without raising, and the spec's worked
example (units = 10) gives total 315 and cost per unit 31.5. -/
theorem compute_breakdown_correct :
    (∀ (units : ℕ) (i : CostInputs),
      (compute units i).fabric_cost = i.fabric_issued * i.fabric_rate ∧
      (compute units i).accessories_cost = (units : ℚ) * i.accessories_rate ∧
      (compute units i).printing_cost = (units : ℚ) * i.printing_rate ∧
      (compute units i).overhead_cost = (units : ℚ) * i.overhead_per_unit ∧
      (compute units i).labor_cutting_cost = (units : ℚ) * i.labor_cutting_rate ∧
      (compute units i).labor_sewing_cost = (units : ℚ) * i.labor_sewing_rate ∧
      (compute units i).labor_finishing_cost = (units : ℚ) * i.labor_finishing_rate ∧
      (compute units i).dyeing_cost = (units : ℚ) * i.dyeing_rate ∧
      (compute units i).embroidery_cost = (units : ℚ) * i.embroidery_rate ∧
      (compute units i).total_cost =
        (compute units i).fabric_cost + (compute units i).accessories_cost +
        (compute units i).printing_cost + (compute units i).overhead_cost +
        (compute units i).labor_cutting_cost + (compute units i).labor_sewing_cost +
        (compute units i).labor_finishing_cost + (compute units i).dyeing_cost +
        (compute units i).embroidery_cost + i.shipping_cost + i.misc_cost ∧
      (compute units i).cost_per_unit =
        (if units = 0 then 0 else (compute units i).total_cost / (units : ℚ))) ∧
    (compute 10 exampleInputs).total_cost = 315 ∧
    (compute 10 exampleInputs).cost_per_unit = 315 / 10 := by
  refine ⟨fun units i => ?_, by norm_num [compute, exampleInputs], by norm_num [compute, exampleInputs]⟩
  refine ⟨rfl, rfl, rfl, rfl, rfl, rfl, rfl, rfl, rfl, rfl, rfl⟩

theorem find_cons_pos {α : Type} (p : α → Bool) (a : α) (l : List α) (h : p a = true) :
    (a :: l).find? p = some a := by
  simp [List.find?, h]

theorem find_cons_neg {α : Type} (p : α → Bool) (a : α) (l : List α) (h : p a = false) :
    (a :: l).find? p = l.find? p := by
  simp [List.find?, h]

theorem find_map_upsert (l : List CostRow) (nr : CostRow) (o : String)
    (hnr : (nr.order_number == o) = true) :
    l.any (fun r => r.order_number == o) = true →
    (l.map (fun r => if r.order_number == o then nr else r)).find?
      (fun r => r.order_number == o) = some nr := by
  induction l with
  | nil => simp
  | cons r t ih =>
    intro h
    rw [List.map_cons]
    cases hro : r.order_number == o with
    | true =>
      rw [if_pos rfl]
      exact find_cons_pos (fun r => r.order_number == o) nr _ hnr
    | false =>
      rw [if_neg (by simp)]
      rw [find_cons_neg (fun r => r.order_number == o) r _ hro]
      apply ih
      simpa [List.any_cons, hro] using h

theorem find_append_single (l : List CostRow) (nr : CostRow) (p : CostRow → Bool)
    (hl : l.any p = false) (hnr : p nr = true) :
    (l ++ [nr]).find? p = some nr := by
  induction l with
  | nil =>
    rw [List.nil_append]
    exact find_cons_pos p nr [] hnr
  | cons r t ih =>
    simp only [List.any_cons, Bool.or_eq_false_iff] at hl
    rw [List.cons_append, find_cons_neg p r _ hl.1]
    exact ih hl.2

/-- Claim C2: after a save for an order number, loading that order number
returns exactly the twelve saved cost inputs, and the stored current row
carries the full saved tuple (item type, units, inputs, timestamp) with no
field omitted or substituted. -/
theorem save_load_roundtrip :
    ∀ (db : DB) (o it : String) (u : ℕ) (i : CostInputs) (ts : String),
      loadCost (saveCost db o it u i ts) o = some i ∧
      loadCostRow (saveCost db o it u i ts) o =
        some { order_number := o, item_type := it, units := u, inputs := i,
               last_updated := ts } := by
  intro db o it u i ts
  have hrow : loadCostRow (saveCost db o it u i ts) o =
      some { order_number := o, item_type := it, units := u, inputs := i,
             last_updated := ts } := by
    unfold loadCostRow saveCost costUpsert histInsert
    dsimp only
    by_cases hany : db.fabric_cost_1.any (fun r => r.order_number == o) = true
    · rw [if_pos hany]
      exact find_map_upsert _ _ _ (by simp) hany
    · rw [if_neg hany]
      exact find_append_single _ _ _ (Bool.eq_false_iff.mpr hany) (by simp)
  refine ⟨?_, hrow⟩
  have hdef : loadCost (saveCost db o it u i ts) o =
      (loadCostRow (saveCost db o it u i ts) o).map (fun r => r.inputs) := rfl
  rw [hdef, hrow]
  rfl

/-- Claim C10: a save writes only the `fabric_cost_1` and
`fabric_cost_history` tables; the orders table (with its quantities and
stage counters), the accessories ledger and the fabric standards are
unchanged by the save. -/
theorem save_frame_effect :
    ∀ (db : DB) (o it : String) (u : ℕ) (i : CostInputs) (ts : String),
      (saveCost db o it u i ts).orders = db.orders ∧
      (saveCost db o it u i ts).accessories_details = db.accessories_details ∧
      (saveCost db o it u i ts).fabric_standards = db.fabric_standards := by
  intro db o it u i ts
  unfold saveCost costUpsert histInsert
  dsimp only
  split <;> exact ⟨rfl, rfl, rfl⟩

theorem filter_length_zero_iff_any_false (p : CostRow → Bool) (l : List CostRow) :
    ((l.filter p).length = 0) ↔ l.any p = false := by
  induction l with
  | nil => simp
  | cons r t ih => cases hro : p r <;> simp [List.filter_cons, List.any_cons, hro, ih]

theorem filter_cons_pos {α : Type} (p : α → Bool) (a : α) (l : List α) (h : p a = true) :
    (a :: l).filter p = a :: l.filter p := by
  simp [List.filter_cons, h]

theorem filter_cons_neg {α : Type} (p : α → Bool) (a : α) (l : List α) (h : p a = false) :
    (a :: l).filter p = l.filter p := by
  simp [List.filter_cons, h]

theorem filter_map_upsert (l : List CostRow) (nr : CostRow) (o : String)
    (hnr : (nr.order_number == o) = true) :
    ((l.map (fun r => if r.order_number == o then nr else r)).filter
      (fun r => r.order_number == o)).length =
    (l.filter (fun r => r.order_number == o)).length := by
  induction l with
  | nil => simp
  | cons r t ih =>
    rw [List.map_cons]
    cases hro : r.order_number == o with
    | true =>
      rw [if_pos rfl, filter_cons_pos (fun r => r.order_number == o) nr _ hnr,
        filter_cons_pos (fun r => r.order_number == o) r _ hro]
      simp only [List.length_cons, ih]
    | false =>
      rw [if_neg (by simp), filter_cons_neg (fun r => r.order_number == o) r _ hro,
        filter_cons_neg (fun r => r.order_number == o) r _ hro]
      exact ih

theorem countHist_saveCost (db : DB) (o it : String) (u : ℕ) (i : CostInputs) (ts : String) :
    countHist (saveCost db o it u i ts) o = countHist db o + 1 := by
  unfold countHist saveCost costUpsert histInsert
  dsimp only
  split <;> simp [List.filter_append, List.filter_cons]

theorem countCur_saveCost (db : DB) (o it : String) (u : ℕ) (i : CostInputs) (ts : String) :
    countCur (saveCost db o it u i ts) o =
      if countCur db o = 0 then 1 else countCur db o := by
  unfold countCur saveCost costUpsert histInsert
  dsimp only
  cases hany : db.fabric_cost_1.any (fun r => r.order_number == o) with
  | true =>
    rw [if_pos rfl]
    dsimp only
    rw [filter_map_upsert _ _ _ (by simp)]
    have hne : (db.fabric_cost_1.filter (fun r => r.order_number == o)).length ≠ 0 := by
      intro h0
      rw [filter_length_zero_iff_any_false] at h0
      rw [hany] at h0
      exact Bool.noConfusion h0
    rw [if_neg hne]
  | false =>
    rw [if_neg (by simp)]
    dsimp only
    have h0 : (db.fabric_cost_1.filter (fun r => r.order_number == o)).length = 0 :=
      (filter_length_zero_iff_any_false _ _).mpr hany
    rw [if_pos h0]
    rw [List.filter_append, List.length_eq_zero.mp h0]
    simp [List.filter_cons]

theorem saveIter_counts (o it : String) (u : ℕ) (i : CostInputs) (ts : String)
    (db : DB) (hc : countCur db o = 0) :
    ∀ n : ℕ, countHist (saveIter o it u i ts n db) o = countHist db o + n ∧
      countCur (saveIter o it u i ts n db) o = if n = 0 then 0 else 1 := by
  intro n
  induction n with
  | zero => simpa [saveIter] using hc
  | succ n ih =>
    constructor
    · show countHist (saveCost (saveIter o it u i ts n db) o it u i ts) o =
        countHist db o + (n + 1)
      rw [countHist_saveCost, ih.1]
      omega
    · show countCur (saveCost (saveIter o it u i ts n db) o it u i ts) o =
        if n + 1 = 0 then 0 else 1
      rw [countCur_saveCost, ih.2]
      by_cases hn : n = 0 <;> simp [hn]

/-- Claim C3: after N ≥ 1 saves for an order number starting from a state
with no rows for it, the history holds exactly N rows and the current
table exactly 1 row for that order number; and no application operation
mutates or deletes a history row — stage updates, accessory adds and
successful order creations leave the history untouched, and a save only
appends one new row to it. -/
theorem history_append_only
    (db : DB) (o it : String) (u : ℕ) (i : CostInputs) (ts : String) (N : ℕ)
    (hN : 1 ≤ N) (hh : countHist db o = 0) (hc : countCur db o = 0) :
    (countHist (saveIter o it u i ts N db) o = N ∧
     countCur (saveIter o it u i ts N db) o = 1) ∧
    (∀ (db2 : DB) (oid : ℕ) (vCut vSew vFin vPack : ℤ),
      (updateStages db2 oid vCut vSew vFin vPack).fabric_cost_history =
        db2.fabric_cost_history) ∧
    (∀ (db2 : DB) (o2 atype : String) (qty rate : ℚ) (ts2 : String),
      (addAccessory db2 o2 atype qty rate ts2).fabric_cost_history =
        db2.fabric_cost_history) ∧
    (∀ (db2 : DB) (o2 cust prod : String) (due qty : ℤ) (db3 : DB),
      createOrder db2 o2 cust prod due qty = Except.ok db3 →
      db3.fabric_cost_history = db2.fabric_cost_history) ∧
    (∀ (db2 : DB) (o2 it2 : String) (u2 : ℕ) (i2 : CostInputs) (ts2 : String),
      (saveCost db2 o2 it2 u2 i2 ts2).fabric_cost_history =
        db2.fabric_cost_history ++
          [{ id := db2.next_hist_id, order_number := o2, item_type := it2, units := u2,
             inputs := i2, last_updated := ts2 }]) := by
  refine ⟨?_, ?_, ?_, ?_, ?_⟩
  · have h := saveIter_counts o it u i ts db hc N
    have hN0 : N ≠ 0 := by omega
    exact ⟨by rw [h.1, hh, Nat.zero_add], by rw [h.2, if_neg hN0]⟩
  · intro db2 oid vCut vSew vFin vPack
    rfl
  · intro db2 o2 atype qty rate ts2
    rfl
  · intro db2 o2 cust prod due qty db3 hok
    unfold createOrder at hok
    split at hok
    · exact Except.noConfusion hok
    · split at hok
      · exact Except.noConfusion hok
      · cases hok
        rfl
  · intro db2 o2 it2 u2 i2 ts2
    unfold saveCost costUpsert histInsert
    dsimp only
    split <;> rfl

/-- Witness for `history_append_only`: two saves for order "A" into the
empty database leave exactly two history rows and one current row. -/
theorem history_append_only_witness :
    countHist (saveIter "A" "top" 7 exampleInputs "t" 2 emptyDB) "A" = 2 ∧
    countCur (saveIter "A" "top" 7 exampleInputs "t" 2 emptyDB) "A" = 1 :=
  (history_append_only emptyDB "A" "top" 7 exampleInputs "t" 2
    (by norm_num) rfl rfl).1

/-- Claim C4, counterexample: in the run where the `fabric_cost_1` upsert
faults after the history insert (exception swallowed at `main.py` lines
511-514, no rollback), exactly one of the two writes is visible on the
connection — the program's own Cost History read at line 552 observes the
appended history row for "ORD-1" while the current-record table has none —
refuting the claim's "either both become visible or neither is visible"
for that execution. -/
theorem twoPhase_save_fault_one_write_visible :
    countHist (saveCostFaultBetween { committed := initDB, current := initDB }
      "ORD-1" "top" 10 exampleInputs "t1").current "ORD-1" = 1 ∧
    countCur (saveCostFaultBetween { committed := initDB, current := initDB }
      "ORD-1" "top" 10 exampleInputs "t1").current "ORD-1" = 0 := by
  constructor <;> rfl

/-- Claim C4 (amended): the two-phase save is atomic at the durable level.
A fault-free save commits both writes together; when a fault occurs
between the two writes, no further commit happens in that rerun and
`conn.close()` at the end of the script rolls the pending history insert
back, so neither write is durably visible and no later rerun (which opens
a fresh connection on the committed state) ever observes the two tables
inconsistent. The only deviation from atomicity is transient: within the
faulting rerun itself, the same-connection history read sees the pending
history row while `fabric_cost_1` is unchanged. -/
theorem twoPhase_save_durable_atomicity :
    ∀ (db : DB) (o it : String) (u : ℕ) (i : CostInputs) (ts : String),
      closeConn (saveCostTxn { committed := db, current := db } o it u i ts) =
        saveCost db o it u i ts ∧
      closeConn (saveCostFaultBetween { committed := db, current := db } o it u i ts) =
        db ∧
      (saveCostFaultBetween { committed := db, current := db }
          o it u i ts).current.fabric_cost_history =
        db.fabric_cost_history ++
          [{ id := db.next_hist_id, order_number := o, item_type := it, units := u,
             inputs := i, last_updated := ts }] ∧
      (saveCostFaultBetween { committed := db, current := db }
          o it u i ts).current.fabric_cost_1 =
        db.fabric_cost_1 :=
  fun db o it u i ts => ⟨rfl, rfl, rfl, rfl⟩

/-- Claim C5: required-fabric resolution is the deterministic chain of the
source — a standards row for (product_type, size="standard") wins over the
built-in constant table, which yields 0 for unknown types; a positive
override takes precedence over the resolved standard, a zero override
falls through to it; and resolving "trouser" with no standards rows gives
the fallback constant 1.0 per unit. -/
theorem fabric_resolution_chain :
    (∀ (db : DB) (it : String) (units : ℕ) (v : ℚ),
      lookupStandard db it "standard" = some v →
      fabric_required_std db it units = v * units) ∧
    (∀ (db : DB) (it : String) (units : ℕ),
      lookupStandard db it "standard" = none →
      fabric_required_std db it units = fabricStandardGet it 0 * units) ∧
    (∀ (override std : ℚ) (units : ℕ), 0 < override →
      fabric_required override std units = override * units) ∧
    (∀ (std : ℚ) (units : ℕ), fabric_required 0 std units = std) ∧
    (∀ it : String, it ≠ "top" → it ≠ "trouser" → it ≠ "suit" →
      fabricStandardGet it 0 = 0) ∧
    (∀ (db : DB) (units : ℕ), db.fabric_standards = [] →
      fabric_required_std db "trouser" units = 1 * units) := by
  refine ⟨?_, ?_, ?_, ?_, ?_, ?_⟩
  · intro db it units v h
    unfold fabric_required_std
    rw [h]
  · intro db it units h
    unfold fabric_required_std
    rw [h]
  · intro override std units h
    unfold fabric_required
    rw [if_neg (ne_of_gt h)]
  · intro std units
    simp [fabric_required]
  · intro it h1 h2 h3
    have k1 : (("top", (3:ℚ)/2).1 == it) = false := beq_eq_false_iff_ne.mpr (Ne.symm h1)
    have k2 : (("trouser", (1:ℚ)).1 == it) = false := beq_eq_false_iff_ne.mpr (Ne.symm h2)
    have k3 : (("suit", (5:ℚ)/2).1 == it) = false := beq_eq_false_iff_ne.mpr (Ne.symm h3)
    unfold fabricStandardGet FABRIC_STANDARD
    rw [find_cons_neg (fun p : String × ℚ => p.1 == it) ("top", 3/2) _ k1,
      find_cons_neg (fun p : String × ℚ => p.1 == it) ("trouser", 1) _ k2,
      find_cons_neg (fun p : String × ℚ => p.1 == it) ("suit", 5/2) _ k3]
    rfl
  · intro db units h
    unfold fabric_required_std lookupStandard
    rw [h]
    rfl

/-- Witness for `fabric_resolution_chain`: with no standards rows,
"trouser" resolves to the fallback constant 1.0, so 4 units need 4 meters;
and a positive override of 2 beats a resolved standard of 99 for 5 units. -/
theorem fabric_resolution_chain_witness :
    fabric_required_std emptyDB "trouser" 4 = 4 ∧
    fabric_required 2 99 5 = 10 := by
  constructor
  · have h := fabric_resolution_chain.2.2.2.2.2 emptyDB 4 rfl
    simpa using h
  · have h := fabric_resolution_chain.2.2.1 2 99 5 (by norm_num)
    norm_num at h
    exact h

/-- Claim C6: order creation fails with a validation error when quantity is
below 1 (the widget's minimum), fails with a duplicate-key error when the
order number already exists, and otherwise inserts exactly one row whose
four stage counters are all 0. -/
theorem createOrder_spec :
    ∀ (db : DB) (o cust prod : String) (due qty : ℤ),
      (qty < 1 →
        createOrder db o cust prod due qty = Except.error CreateError.validationError) ∧
      (1 ≤ qty → (∃ r ∈ db.orders, r.order_number = o) →
        createOrder db o cust prod due qty = Except.error CreateError.duplicateKey) ∧
      (1 ≤ qty → (∀ r ∈ db.orders, r.order_number ≠ o) →
        createOrder db o cust prod due qty = Except.ok
          { db with
            orders := db.orders ++
              [{ id := db.next_order_id, order_number := o, customer := cust,
                 product := prod, due_date := some due, quantity := qty,
                 cutting := 0, sewing := 0, finishing := 0, packaging := 0 }]
            next_order_id := db.next_order_id + 1 }) := by
  intro db o cust prod due qty
  refine ⟨?_, ?_, ?_⟩
  · intro h
    unfold createOrder
    rw [if_pos h]
  · intro h1 h2
    obtain ⟨r, hr, he⟩ := h2
    unfold createOrder
    rw [if_neg (by omega), if_pos (List.any_eq_true.mpr ⟨r, hr, by simp [he]⟩)]
  · intro h1 h2
    have hany : ¬((db.orders.any fun r => r.order_number == o) = true) := by
      intro hx
      obtain ⟨r, hr, hp⟩ := List.any_eq_true.mp hx
      exact h2 r hr (by simpa using hp)
    unfold createOrder
    rw [if_neg (by omega), if_neg hany]

/-- Witness for `createOrder_spec`: quantity 0 is rejected, a fresh order
number inserts one zero-counter row, and re-creating it hits the
duplicate-key error. -/
theorem createOrder_spec_witness :
    createOrder emptyDB "A" "c" "p" 0 0 = Except.error CreateError.validationError ∧
    createOrder emptyDB "A" "c" "p" 0 5 = Except.ok
      { emptyDB with
        orders := [{ id := 1, order_number := "A", customer := "c", product := "p",
                     due_date := some 0, quantity := 5,
                     cutting := 0, sewing := 0, finishing := 0, packaging := 0 }]
        next_order_id := 2 } ∧
    createOrder
      { emptyDB with
        orders := [{ id := 1, order_number := "A", customer := "c", product := "p",
                     due_date := some 0, quantity := 5,
                     cutting := 0, sewing := 0, finishing := 0, packaging := 0 }]
        next_order_id := 2 } "A" "c2" "p2" 3 4 =
      Except.error CreateError.duplicateKey := by
  refine ⟨?_, ?_, ?_⟩
  · exact (createOrder_spec emptyDB "A" "c" "p" 0 0).1 (by norm_num)
  · have h := (createOrder_spec emptyDB "A" "c" "p" 0 5).2.2 (by norm_num)
      (by simp [emptyDB])
    simpa [emptyDB] using h
  · exact (createOrder_spec _ "A" "c2" "p2" 3 4).2.1 (by norm_num)
      ⟨_, List.mem_singleton.mpr rfl, rfl⟩

/-- Claim C7: after any stage update the four counters of the targeted
order lie in [0, quantity] (the widget clamps out-of-range values), all
four counters are overwritten unconditionally, rows with a different id
are untouched, and the update is committed immediately so readers of the
durable state observe the new values. -/
theorem updateStages_spec :
    ∀ (db : DB) (oid : ℕ) (vCut vSew vFin vPack : ℤ),
      ((updateStages db oid vCut vSew vFin vPack).orders.length = db.orders.length) ∧
      (∀ r ∈ db.orders, r.id ≠ oid →
        r ∈ (updateStages db oid vCut vSew vFin vPack).orders) ∧
      (∀ r ∈ db.orders, r.id = oid →
        ({ r with
            cutting := clampStage vCut r.quantity
            sewing := clampStage vSew r.quantity
            finishing := clampStage vFin r.quantity
            packaging := clampStage vPack r.quantity } ∈
          (updateStages db oid vCut vSew vFin vPack).orders) ∧
        (0 ≤ r.quantity →
          0 ≤ clampStage vCut r.quantity ∧ clampStage vCut r.quantity ≤ r.quantity ∧
          0 ≤ clampStage vSew r.quantity ∧ clampStage vSew r.quantity ≤ r.quantity ∧
          0 ≤ clampStage vFin r.quantity ∧ clampStage vFin r.quantity ≤ r.quantity ∧
          0 ≤ clampStage vPack r.quantity ∧ clampStage vPack r.quantity ≤ r.quantity)) ∧
      (∀ s : Conn, (updateStagesTxn s oid vCut vSew vFin vPack).committed =
        updateStages s.current oid vCut vSew vFin vPack) := by
  intro db oid vCut vSew vFin vPack
  refine ⟨by simp [updateStages], ?_, ?_, fun s => rfl⟩
  · intro r hr hne
    have hb : (r.id == oid) = false := by simp [hne]
    have hmem := List.mem_map_of_mem
      (fun r : OrderRow =>
        if r.id == oid then
          { r with
            cutting := clampStage vCut r.quantity
            sewing := clampStage vSew r.quantity
            finishing := clampStage vFin r.quantity
            packaging := clampStage vPack r.quantity }
        else r) hr
    unfold updateStages
    simp only [hb, Bool.false_eq_true, if_false] at hmem
    exact hmem
  · intro r hr he
    constructor
    · have hb : (r.id == oid) = true := by simp [he]
      have hmem := List.mem_map_of_mem
        (fun r : OrderRow =>
          if r.id == oid then
            { r with
              cutting := clampStage vCut r.quantity
              sewing := clampStage vSew r.quantity
              finishing := clampStage vFin r.quantity
              packaging := clampStage vPack r.quantity }
          else r) hr
      unfold updateStages
      simp only [hb, if_true] at hmem
      exact hmem
    · intro hq
      unfold clampStage
      refine ⟨?_, ?_, ?_, ?_, ?_, ?_, ?_, ?_⟩ <;> omega

/-- Witness for `updateStages_spec`: updating a quantity-10 order with the
out-of-range values 15 and -3 stores values clamped into [0, 10]. -/
theorem updateStages_spec_witness :
    0 ≤ clampStage 15 10 ∧ clampStage 15 10 ≤ 10 ∧
    0 ≤ clampStage (-3) 10 ∧ clampStage (-3) 10 ≤ 10 := by
  have h := ((updateStages_spec
    { emptyDB with
      orders := [{ id := 7, order_number := "B", customer := "c", product := "Tops",
                   due_date := some 3, quantity := 10, cutting := 1, sewing := 1,
                   finishing := 0, packaging := 0 }] }
    7 15 (-3) 5 20).2.2.1
    { id := 7, order_number := "B", customer := "c", product := "Tops",
      due_date := some 3, quantity := 10, cutting := 1, sewing := 1,
      finishing := 0, packaging := 0 }
    (by simp) rfl).2 (by norm_num)
  exact ⟨h.1, h.2.1, h.2.2.1, h.2.2.2.1⟩

theorem not_mem_Icc_iff (x a b : ℚ) : x ∉ Set.Icc a b ↔ (x < a ∨ x > b) := by
  rw [Set.mem_Icc, not_and_or, not_le, not_le]

/-- Claim C8: the cost-form validation is advisory only — the deviation
warning fires exactly when fabric_issued is outside the closed interval
[0.8×required, 1.2×required], the unusual-rate warning exactly when
fabric_rate is outside [1, 50], and the saved database state depends only
on whether the form was submitted, never on the warnings. -/
theorem validate_warnings_spec :
    ∀ (issued required rate : ℚ),
      (Warning.fabricDeviation ∈ validateCost issued required rate ↔
        issued ∉ Set.Icc (required * (8/10)) (required * (12/10))) ∧
      (Warning.unusualRate ∈ validateCost issued required rate ↔
        rate ∉ Set.Icc (1 : ℚ) 50) ∧
      (∀ (db : DB) (submitted : Bool) (o it : String) (u : ℕ) (i : CostInputs)
        (ts : String),
        (costSheetSubmit db submitted o it u i required ts).2 =
          if submitted then saveCost db o it u i ts else db) := by
  intro issued required rate
  refine ⟨?_, ?_, fun db submitted o it u i ts => rfl⟩
  · rw [not_mem_Icc_iff]
    unfold validateCost
    by_cases c1 : issued < required * (8/10) ∨ issued > required * (12/10) <;>
      by_cases c2 : rate < 1 ∨ rate > 50 <;> simp [c1, c2]
  · rw [not_mem_Icc_iff]
    unfold validateCost
    by_cases c1 : issued < required * (8/10) ∨ issued > required * (12/10) <;>
      by_cases c2 : rate < 1 ∨ rate > 50 <;> simp [c1, c2]

theorem list_sum_nonneg (l : List ℤ) (h : ∀ x ∈ l, 0 ≤ x) : 0 ≤ l.sum := by
  induction l with
  | nil => simp
  | cons x t ih =>
    rw [List.sum_cons]
    have hx := h x (List.mem_cons_self x t)
    have ht := ih (fun y hy => h y (List.mem_cons_of_mem x hy))
    omega

theorem list_sum_one_le (l : List ℤ) (hne : l ≠ []) (h : ∀ x ∈ l, 1 ≤ x) :
    1 ≤ l.sum := by
  cases l with
  | nil => exact absurd rfl hne
  | cons x t =>
    rw [List.sum_cons]
    have hx := h x (List.mem_cons_self x t)
    have ht := list_sum_nonneg t
      (fun y hy => le_trans (by norm_num) (h y (List.mem_cons_of_mem x hy)))
    omega

/-- Claim C9, counterexample: on a single order with quantity 3 and
packaging 1 the dashboard's overall completion (the Python `int(...)` of
the ratio) is 33, not the exact value 100/3 the claim states. -/
theorem completion_int_truncation :
    (overall_completion exOrders : ℚ) ≠
      (sumPackaging exOrders : ℚ) / (sumQuantity exOrders : ℚ) * 100 := by
  have h1 : sumPackaging exOrders = 1 := rfl
  have h2 : sumQuantity exOrders = 3 := rfl
  have h3 : overall_completion exOrders = 33 := by
    unfold overall_completion pyInt
    rw [h1, h2, if_pos (by norm_num)]
    rw [show ((1:ℤ):ℚ) / ((3:ℤ):ℚ) * 100 = 100/3 by norm_num]
    rw [Int.floor_eq_iff]
    constructor <;> norm_num
  rw [h1, h2, h3]
  norm_num

/-- Claim C9 (amended): over a non-empty order set with in-app quantities
(≥ 1) and non-negative packaging counters, the dashboard's overall
completion is the integer truncation of sum(packaging)/sum(quantity)×100 —
characterized by overall×Σquantity ≤ Σpackaging×100 < (overall+1)×Σquantity;
on-track counts exactly the orders due strictly after today, at-risk
exactly those due strictly before, and an order due exactly today (or with
an unparseable due date) increments neither count. -/
theorem completion_metrics_spec :
    ∀ (l : List OrderRow) (today : ℤ),
      (l ≠ [] → (∀ r ∈ l, 1 ≤ r.quantity ∧ 0 ≤ r.packaging) →
        overall_completion l * sumQuantity l ≤ sumPackaging l * 100 ∧
        sumPackaging l * 100 < (overall_completion l + 1) * sumQuantity l) ∧
      (∀ r : OrderRow, r.due_date = some today →
        on_track (r :: l) today = on_track l today ∧
        at_risk (r :: l) today = at_risk l today) ∧
      (∀ (r : OrderRow) (d : ℤ), r.due_date = some d → today < d →
        on_track (r :: l) today = on_track l today + 1 ∧
        at_risk (r :: l) today = at_risk l today) ∧
      (∀ (r : OrderRow) (d : ℤ), r.due_date = some d → d < today →
        at_risk (r :: l) today = at_risk l today + 1 ∧
        on_track (r :: l) today = on_track l today) ∧
      (∀ r : OrderRow, r.due_date = none →
        on_track (r :: l) today = on_track l today ∧
        at_risk (r :: l) today = at_risk l today) := by
  intro l today
  refine ⟨?_, ?_, ?_, ?_, ?_⟩
  · intro hne hq
    have hq1 : 1 ≤ sumQuantity l := by
      apply list_sum_one_le
      · simpa using hne
      · intro x hx
        obtain ⟨r, hr, rfl⟩ := List.mem_map.mp hx
        exact (hq r hr).1
    have hp0 : 0 ≤ sumPackaging l := by
      apply list_sum_nonneg
      intro x hx
      obtain ⟨r, hr, rfl⟩ := List.mem_map.mp hx
      exact (hq r hr).2
    have hsQ : (0:ℚ) < (sumQuantity l : ℚ) := by
      exact_mod_cast (by omega : (0:ℤ) < sumQuantity l)
    have hover : overall_completion l =
        ⌊(sumPackaging l : ℚ) / (sumQuantity l : ℚ) * 100⌋ := by
      unfold overall_completion pyInt
      rw [if_pos]
      apply mul_nonneg (div_nonneg _ (le_of_lt hsQ)) (by norm_num)
      exact_mod_cast hp0
    have hrw : (sumPackaging l : ℚ) / (sumQuantity l : ℚ) * 100 =
        ((sumPackaging l : ℚ) * 100) / (sumQuantity l : ℚ) := by ring
    rw [hover]
    constructor
    · have h1 : ((⌊(sumPackaging l : ℚ) / (sumQuantity l : ℚ) * 100⌋ : ℚ)) ≤
          ((sumPackaging l : ℚ) * 100) / (sumQuantity l : ℚ) := by
        rw [← hrw]
        exact Int.floor_le _
      exact_mod_cast (le_div_iff₀ hsQ).mp h1
    · have h1 : ((sumPackaging l : ℚ) * 100) / (sumQuantity l : ℚ) <
          (⌊(sumPackaging l : ℚ) / (sumQuantity l : ℚ) * 100⌋ : ℚ) + 1 := by
        rw [← hrw]
        exact Int.lt_floor_add_one _
      exact_mod_cast (div_lt_iff₀ hsQ).mp h1
  · intro r h
    constructor
    · unfold on_track
      rw [filter_cons_neg (dueAfter today) r _ (by simp [dueAfter, h])]
    · unfold at_risk
      rw [filter_cons_neg (dueBefore today) r _ (by simp [dueBefore, h])]
  · intro r d h hd
    constructor
    · unfold on_track
      rw [filter_cons_pos (dueAfter today) r _ (by simp [dueAfter, h, hd])]
      rfl
    · unfold at_risk
      rw [filter_cons_neg (dueBefore today) r _ (by simp [dueBefore, h]; omega)]
  · intro r d h hd
    constructor
    · unfold at_risk
      rw [filter_cons_pos (dueBefore today) r _ (by simp [dueBefore, h, hd])]
      rfl
    · unfold on_track
      rw [filter_cons_neg (dueAfter today) r _ (by simp [dueAfter, h]; omega)]
  · intro r h
    constructor
    · unfold on_track
      rw [filter_cons_neg (dueAfter today) r _ (by simp [dueAfter, h])]
    · unfold at_risk
      rw [filter_cons_neg (dueBefore today) r _ (by simp [dueBefore, h])]

/-- Witness for `completion_metrics_spec`: the quantity-3, packaging-1
order set satisfies the truncation characterization (33×3 ≤ 100 < 34×3). -/
theorem completion_metrics_spec_witness :
    overall_completion exOrders * sumQuantity exOrders ≤ sumPackaging exOrders * 100 ∧
    sumPackaging exOrders * 100 < (overall_completion exOrders + 1) * sumQuantity exOrders :=
  (completion_metrics_spec exOrders 0).1 (by simp [exOrders]) (by simp [exOrders])

end GarmentProd
